import Mathlib

/-!
WebSecVisualizer — scan orchestration and scoring engine, shallow embedding.

This file embeds the scoring, aggregation, recommendation and orchestration
logic of the WebSecVisualizer repository in Lean 4 and proves/refutes the
frozen specification claims about it.

Embedded sources:
* `server/services/SecurityScanner.js` (the static-`startScan` variant used by
  `server/routes/scan.js`): `startScan`, `calculateRiskScore`, `getRiskLevel`,
  `generateRecommendations`.
* the instance-based `SecurityScanner` variant: `compileRecommendations`.
* `server/routes/scan.js`: `calculateRiskLevel`, `generateSummary`.
* `server/services/SSLAnalyzer.js` (mock-data variant): `calculateSslScore`,
  the MD5-based seed derivation of `generateRealisticMockData`, and
  `seededRandom`.

Modelling conventions:
* JavaScript numbers are modelled as `ℚ` (every JS arithmetic result used here
  is a rational value); integer-valued scores use `ℤ` where the source only
  ever holds integers.
* `Math.round` is "round half toward +∞": `⌊q + 1/2⌋`.
* Objects become structures; `null`/absent becomes `Option`.
* Byte strings (for hashing) are `List ℕ` of byte values.
-/

/-- JavaScript `Math.round`: round to nearest integer, halves toward `+∞`. -/
def jsRound (q : ℚ) : ℤ := ⌊q + 1/2⌋

/-! ## Data model: per-dimension analysis results (`scanResult.results`) -/

/-- SSL dimension result (fields read by the scoring code). -/
structure SslResult where
  grade : String
  score : ℚ
deriving DecidableEq, Repr

/-- Headers dimension result. -/
structure HeadersResult where
  score : ℚ
  missingHeaders : List String
deriving DecidableEq, Repr

/-- Malware dimension result (`malicious` and `total` are vendor counts). -/
structure MalwareResult where
  malicious : ℕ
  total : ℕ
  score : ℚ
deriving DecidableEq, Repr

/-- Ports dimension result. -/
structure PortsResult where
  openPorts : List ℕ
  score : ℚ
deriving DecidableEq, Repr

/-- One fingerprinted technology (`tech.outdated` is read by the scoring code). -/
structure TechItem where
  name : String
  outdated : Bool
deriving DecidableEq, Repr

/-- Tech dimension result. -/
structure TechResult where
  technologies : List TechItem
  score : ℚ
deriving DecidableEq, Repr

/-- Whois dimension result. -/
structure WhoisResult where
  score : ℚ
deriving DecidableEq, Repr

/-- A compiled recommendation as produced by
`SecurityScanner.generateRecommendations` (static variant). -/
structure RecommendationItem where
  category : String
  priority : String
  title : String
  description : String
  action : String
deriving DecidableEq, Repr

/-- The `results` object of a scan record as created by `routes/scan.js`:
six dimension slots (initialized to `null`), plus the `riskScore` and
`recommendations` slots that the scanner fills in at the end. -/
structure ResultsMap where
  malware : Option MalwareResult := none
  ssl : Option SslResult := none
  headers : Option HeadersResult := none
  tech : Option TechResult := none
  ports : Option PortsResult := none
  whois : Option WhoisResult := none
  riskScore : Option ℤ := none
  recommendations : List RecommendationItem := []
deriving DecidableEq, Repr

/-- The fixed list of "risky" port numbers used by the scanner and the routes
(`[21, 23, 25, 53, 80, 110, 143, 993, 995]`). -/
def riskyPortList : List ℕ := [21, 23, 25, 53, 80, 110, 143, 993, 995]

/-! ## `SecurityScanner.calculateRiskScore` (static variant) -/

/-- SSL block of `calculateRiskScore`: points from the letter grade. -/
def sslGradePoints (grade : String) : ℚ :=
  if grade = "A+" ∨ grade = "A" then 100
  else if grade = "B" then 75
  else if grade = "C" then 50
  else if grade = "D" then 25
  else if grade = "E" ∨ grade = "F" then 0
  else 0

/-- Headers block of `calculateRiskScore`: `results.headers.score || 0`
(the `|| 0` is the identity on a numeric score). -/
def headersPoints (h : HeadersResult) : ℚ := h.score

/-- Malware block of `calculateRiskScore`:
`Math.max(0, 100 - (malicious || 0) / (total || 1) * 100)`. -/
def malwarePoints (m : MalwareResult) : ℚ :=
  let maliciousCount : ℚ := m.malicious
  let totalCount : ℚ := if m.total = 0 then 1 else m.total
  let malwarePercentage := maliciousCount / totalCount * 100
  max 0 (100 - malwarePercentage)

/-- Ports block of `calculateRiskScore`:
`Math.max(0, 100 - riskyPorts.length * 20)`. -/
def portsPoints (p : PortsResult) : ℚ :=
  let riskyPorts := p.openPorts.filter (fun port => port ∈ riskyPortList)
  max 0 (100 - riskyPorts.length * 20)

/-- Tech block of `calculateRiskScore`:
`Math.max(0, 100 - outdatedTech.length * 10)`. -/
def techPoints (t : TechResult) : ℚ :=
  let outdatedTech := t.technologies.filter (fun tech => tech.outdated)
  max 0 (100 - outdatedTech.length * 10)

/-- Embedding of `SecurityScanner.calculateRiskScore(results)` (static variant): each
present dimension among ssl, headers, malware, ports, tech adds `100` to
`maxScore` and its block's points to `score`; the result is
`Math.round(score / maxScore * 100)`, or `0` when `maxScore` is `0`.
The whois slot is never inspected. -/
def calculateRiskScore (results : ResultsMap) : ℤ :=
  let score : ℚ := 0
  let maxScore : ℚ := 0
  let (score, maxScore) :=
    match results.ssl with
    | some ssl => (score + sslGradePoints ssl.grade, maxScore + 100)
    | none => (score, maxScore)
  let (score, maxScore) :=
    match results.headers with
    | some h => (score + headersPoints h, maxScore + 100)
    | none => (score, maxScore)
  let (score, maxScore) :=
    match results.malware with
    | some m => (score + malwarePoints m, maxScore + 100)
    | none => (score, maxScore)
  let (score, maxScore) :=
    match results.ports with
    | some p => (score + portsPoints p, maxScore + 100)
    | none => (score, maxScore)
  let (score, maxScore) :=
    match results.tech with
    | some t => (score + techPoints t, maxScore + 100)
    | none => (score, maxScore)
  if maxScore > 0 then jsRound (score / maxScore * 100) else 0

/-- Embedding of `SecurityScanner.getRiskLevel(score)` (static variant):
`≥80 → low`, `≥60 → medium`, `≥40 → high`, else `critical`. -/
def getRiskLevel (score : ℤ) : String :=
  if score ≥ 80 then "low"
  else if score ≥ 60 then "medium"
  else if score ≥ 40 then "high"
  else "critical"

/-! ## `SecurityScanner.generateRecommendations` (static variant) -/

/-- The priority rank used by the sort in `generateRecommendations`
(`{ 'critical': 0, 'high': 1, 'medium': 2, 'low': 3 }`); every recommendation
this function pushes carries one of the four keys, so no other value occurs. -/
def recItemRank (p : String) : ℕ :=
  if p = "critical" then 0
  else if p = "high" then 1
  else if p = "medium" then 2
  else if p = "low" then 3
  else 4

/-- Embedding of `SecurityScanner.generateRecommendations(results)` (static variant):
pushes dimension-specific recommendation objects in a fixed traversal order
(ssl, headers, malware, ports, tech), then stable-sorts them by priority rank.
JavaScript `Array.prototype.sort` is stable, modelled by `insertionSort`. -/
def generateRecommendations (results : ResultsMap) : List RecommendationItem :=
  let recs : List RecommendationItem := []
  let recs := recs ++
    (match results.ssl with
     | some ssl =>
        if ssl.grade = "F" ∨ ssl.grade = "E" then
          [{ category := "SSL/TLS", priority := "high",
             title := "Upgrade SSL/TLS Configuration",
             description := "Your SSL/TLS configuration is weak. Consider upgrading to stronger protocols and ciphers.",
             action := "Configure TLS 1.2+ and remove weak ciphers" }]
        else if ssl.grade = "D" ∨ ssl.grade = "C" then
          [{ category := "SSL/TLS", priority := "medium",
             title := "Improve SSL/TLS Security",
             description := "Your SSL/TLS configuration can be improved for better security.",
             action := "Review and update SSL/TLS settings" }]
        else []
     | none => [])
  let recs := recs ++
    (match results.headers with
     | some h =>
        (if "Content-Security-Policy" ∈ h.missingHeaders then
          [{ category := "Security Headers", priority := "high",
             title := "Add Content Security Policy",
             description := "CSP helps prevent XSS attacks by controlling resource loading.",
             action := "Implement Content-Security-Policy header" }]
         else []) ++
        (if "X-Frame-Options" ∈ h.missingHeaders then
          [{ category := "Security Headers", priority := "medium",
             title := "Add X-Frame-Options",
             description := "Prevents clickjacking attacks.",
             action := "Add X-Frame-Options: DENY or SAMEORIGIN" }]
         else []) ++
        (if "X-Content-Type-Options" ∈ h.missingHeaders then
          [{ category := "Security Headers", priority := "medium",
             title := "Add X-Content-Type-Options",
             description := "Prevents MIME type sniffing.",
             action := "Add X-Content-Type-Options: nosniff" }]
         else []) ++
        (if "Strict-Transport-Security" ∈ h.missingHeaders then
          [{ category := "Security Headers", priority := "high",
             title := "Add HSTS Header",
             description := "Forces HTTPS connections and prevents protocol downgrade attacks.",
             action := "Add Strict-Transport-Security header" }]
         else [])
     | none => [])
  let recs := recs ++
    (match results.malware with
     | some m =>
        if m.malicious > 0 then
          [{ category := "Malware", priority := "critical",
             title := "Malware Detected",
             description := toString m.malicious ++ " security vendors flagged this URL as malicious.",
             action := "Investigate and clean the website immediately" }]
        else []
     | none => [])
  let recs := recs ++
    (match results.ports with
     | some p =>
        let riskyPorts := p.openPorts.filter (fun port => port ∈ riskyPortList)
        if riskyPorts.length > 0 then
          [{ category := "Network Security", priority := "medium",
             title := "Close Unnecessary Ports",
             description := "Found " ++ toString riskyPorts.length ++
               " potentially risky open ports: " ++
               String.intercalate ", " (riskyPorts.map toString),
             action := "Review and close unnecessary ports" }]
        else []
     | none => [])
  let recs := recs ++
    (match results.tech with
     | some t =>
        let outdatedTech := t.technologies.filter (fun tech => tech.outdated)
        if outdatedTech.length > 0 then
          [{ category := "Technology Stack", priority := "medium",
             title := "Update Outdated Technologies",
             description := "Found " ++ toString outdatedTech.length ++
               " outdated technologies that may have security vulnerabilities.",
             action := "Update to latest versions of identified technologies" }]
        else []
     | none => [])
  recs.insertionSort (fun a b => recItemRank a.priority ≤ recItemRank b.priority)

/-! ## `routes/scan.js` read-time helpers -/

/-- Embedding of `calculateRiskLevel(results)` from `routes/scan.js`.

The guard `Object.values(results).every(r => r === null)` inspects all eight
slots of the results object; the `recommendations` slot always holds an array
(created as `[]`), and an array is never `=== null`, so the guard is `false`
for every results object this program builds — embedded as the literal
conjunction ending in `False`. -/
def calculateRiskLevel (results : ResultsMap) : String :=
  if results.malware = none ∧ results.ssl = none ∧ results.headers = none ∧
     results.tech = none ∧ results.ports = none ∧ results.whois = none ∧
     results.riskScore = none ∧ False then
    "unknown"
  else
    let score : ℚ := 0
    let totalChecks : ℕ := 0
    let (score, totalChecks) :=
      match results.ssl with
      | some ssl =>
        (score +
          (if ssl.grade = "A" ∨ ssl.grade = "A+" then 10
           else if ssl.grade = "B" then 7
           else if ssl.grade = "C" then 4
           else 1), totalChecks + 1)
      | none => (score, totalChecks)
    let (score, totalChecks) :=
      match results.headers with
      | some h => (score + h.score / 100 * 10, totalChecks + 1)
      | none => (score, totalChecks)
    let (score, totalChecks) :=
      match results.malware with
      | some m =>
        (score +
          (if m.malicious = 0 then 10
           else if m.malicious < 5 then 7
           else if m.malicious < 10 then 4
           else 1), totalChecks + 1)
      | none => (score, totalChecks)
    let (score, totalChecks) :=
      match results.ports with
      | some p =>
        let riskyPorts := p.openPorts.filter (fun port => port ∈ riskyPortList)
        (score +
          (if riskyPorts.length = 0 then 10
           else if riskyPorts.length < 3 then 7
           else 4), totalChecks + 1)
      | none => (score, totalChecks)
    if totalChecks = 0 then "unknown"
    else
      let averageScore := score / totalChecks
      if averageScore ≥ 8 then "low"
      else if averageScore ≥ 5 then "medium"
      else "high"

/-- The summary record returned by `generateSummary`. -/
structure Summary where
  totalChecks : ℕ
  passedChecks : ℕ
  failedChecks : ℕ
  warnings : ℕ
deriving DecidableEq, Repr

/-- Embedding of `generateSummary(results)` from `routes/scan.js`: counts the ssl, headers,
malware and ports dimensions into passed/warning/failed buckets; the tech and
whois slots are never inspected. -/
def generateSummary (results : ResultsMap) : Summary :=
  let summary : Summary := ⟨0, 0, 0, 0⟩
  let summary :=
    match results.ssl with
    | some ssl =>
      if ssl.grade = "A" ∨ ssl.grade = "A+" then
        { summary with totalChecks := summary.totalChecks + 1,
                       passedChecks := summary.passedChecks + 1 }
      else
        { summary with totalChecks := summary.totalChecks + 1,
                       failedChecks := summary.failedChecks + 1 }
    | none => summary
  let summary :=
    match results.headers with
    | some h =>
      if h.score ≥ 80 then
        { summary with totalChecks := summary.totalChecks + 1,
                       passedChecks := summary.passedChecks + 1 }
      else if h.score ≥ 60 then
        { summary with totalChecks := summary.totalChecks + 1,
                       warnings := summary.warnings + 1 }
      else
        { summary with totalChecks := summary.totalChecks + 1,
                       failedChecks := summary.failedChecks + 1 }
    | none => summary
  let summary :=
    match results.malware with
    | some m =>
      if m.malicious = 0 then
        { summary with totalChecks := summary.totalChecks + 1,
                       passedChecks := summary.passedChecks + 1 }
      else
        { summary with totalChecks := summary.totalChecks + 1,
                       failedChecks := summary.failedChecks + 1 }
    | none => summary
  let summary :=
    match results.ports with
    | some p =>
      let riskyPorts := p.openPorts.filter (fun port => port ∈ riskyPortList)
      if riskyPorts.length = 0 then
        { summary with totalChecks := summary.totalChecks + 1,
                       passedChecks := summary.passedChecks + 1 }
      else
        { summary with totalChecks := summary.totalChecks + 1,
                       warnings := summary.warnings + 1 }
    | none => summary
  summary

/-! ## Scan orchestration (`SecurityScanner.startScan`, static variant) -/

/-- Scan lifecycle status. -/
inductive ScanStatus where
  | pending
  | scanning
  | completed
  | failed
deriving DecidableEq, Repr

/-- An entry of `scanResult.errors` (the timestamp is opaque and omitted). -/
structure StepError where
  step : String
  error : String
deriving DecidableEq, Repr

/-- A scan record as created by `routes/scan.js` (identity, url and the
opaque timestamps are not modelled; `endTime` records whether the field has
been set). -/
structure ScanRecord where
  status : ScanStatus
  progress : ℤ
  results : ResultsMap
  errors : List StepError
  endTime : Bool
deriving DecidableEq, Repr

/-- The scan record freshly created by the POST route:
`status: 'pending', progress: 0`, all-null results, no errors. -/
def initialScanRecord : ScanRecord :=
  { status := .pending, progress := 0, results := {}, errors := [], endTime := false }

/-- What each of the six analyzer invocations does in a given run: either
return a result or throw with an error message.  One field per pipeline step,
in the fixed `scanSteps` order. -/
structure StepOutcomes where
  malware : Except String MalwareResult
  ssl : Except String SslResult
  headers : Except String HeadersResult
  tech : Except String TechResult
  ports : Except String PortsResult
  whois : Except String WhoisResult

/-- The `scanSteps` weights in pipeline order
(malware 20, ssl 20, headers 20, tech 15, ports 15, whois 10). -/
def scanStepWeights : List ℤ := [20, 20, 20, 15, 15, 10]

/-- Embedding of `scanSteps.reduce((sum, step) => sum + step.weight, 0)`. -/
def totalWeight : ℤ := scanStepWeights.foldl (· + ·) 0

/-- Progress after a cumulative completed weight:
`Math.round((completedWeight / totalWeight) * 100)`. -/
def stepProgress (completedWeight : ℤ) : ℤ :=
  jsRound ((completedWeight : ℚ) / (totalWeight : ℚ) * 100)

/-- Loop state of the `for (const step of scanSteps)` loop, together with the
trace of progress values observed after each step's store update. -/
structure LoopState where
  record : ScanRecord
  completedWeight : ℤ
  trace : List ℤ

/-- One iteration of the step loop: on success store the result under the
dimension key, on error append a `StepError`; in both branches the step's
weight is added to `completedWeight` and `progress` is recomputed. -/
def runStep (name : String) (weight : ℤ) (outcome : Except String α)
    (storeResult : α → ResultsMap → ResultsMap) (st : LoopState) : LoopState :=
  match outcome with
  | .ok result =>
      let cw := st.completedWeight + weight
      let prog := stepProgress cw
      { record := { st.record with
          results := storeResult result st.record.results, progress := prog },
        completedWeight := cw, trace := st.trace ++ [prog] }
  | .error msg =>
      let cw := st.completedWeight + weight
      let prog := stepProgress cw
      { record := { st.record with
          errors := st.record.errors ++ [⟨name, msg⟩], progress := prog },
        completedWeight := cw, trace := st.trace ++ [prog] }

/-- Post-loop finalization: attach `riskScore` and `recommendations` to the
results, then mark the record `completed` with `progress = 100` and its
`endTime` set. -/
def finalizeRecord (r : ScanRecord) : ScanRecord :=
  let results := { r.results with riskScore := some (calculateRiskScore r.results) }
  let results := { results with recommendations := generateRecommendations results }
  { r with results := results, status := .completed, progress := 100, endTime := true }

/-- Embedding of `SecurityScanner.startScan(scanId, url, scanResults)` (static variant),
for one scan id.  Inputs: the outcome of `extractDomain(url)` (the call that
can throw before the record lookup), the store's record under this id
(`none` when the record cannot be located), and the six analyzer outcomes.
Output: the record stored under this id after the call, and the trace of
`progress` values written by the step loop.

The `catch` handler looks the record up again and only mutates it when it is
present; when the lookup failed (`none`) nothing in the store changes. -/
def startScan (extractDomainResult : Except String Unit)
    (stored : Option ScanRecord) (outs : StepOutcomes) :
    Option ScanRecord × List ℤ :=
  match extractDomainResult with
  | .error msg =>
      match stored with
      | none => (none, [])
      | some r =>
          (some { r with status := .failed, errors := r.errors ++ [⟨"general", msg⟩] }, [])
  | .ok _ =>
      match stored with
      | none => (none, [])
      | some r0 =>
          let r1 := { r0 with status := .scanning, progress := 0 }
          let st0 : LoopState := ⟨r1, 0, []⟩
          let st1 := runStep "malware" 20 outs.malware
            (fun v rm => { rm with malware := some v }) st0
          let st2 := runStep "ssl" 20 outs.ssl
            (fun v rm => { rm with ssl := some v }) st1
          let st3 := runStep "headers" 20 outs.headers
            (fun v rm => { rm with headers := some v }) st2
          let st4 := runStep "tech" 15 outs.tech
            (fun v rm => { rm with tech := some v }) st3
          let st5 := runStep "ports" 15 outs.ports
            (fun v rm => { rm with ports := some v }) st4
          let st6 := runStep "whois" 10 outs.whois
            (fun v rm => { rm with whois := some v }) st5
          (some (finalizeRecord st6.record), st6.trace)

/-! ## `SecurityScanner.compileRecommendations` (instance variant) -/

/-- A recommendation as emitted by the instance-variant mock analyzers:
`{ message, priority }`, where `priority` may be absent. -/
structure Recommendation where
  message : String
  priority : Option String
deriving DecidableEq, Repr

/-- JavaScript `String.prototype.toLowerCase` (ASCII range, structural so proofs can
evaluate it). -/
def jsToLower (s : String) : String := String.mk (s.data.map Char.toLower)

/-- Embedding of `priorityOrder[a.priority?.toLowerCase()] ?? 99`: rank of a (possibly
absent) priority string; any unknown or absent priority maps to `99`. -/
def priorityRank (p : Option String) : ℕ :=
  match p with
  | none => 99
  | some s =>
      if jsToLower s = "critical" then 0
      else if jsToLower s = "high" then 1
      else if jsToLower s = "medium" then 2
      else if jsToLower s = "low" then 3
      else 99

/-- Embedding of `SecurityScanner.compileRecommendations()` (instance variant): concatenate
every result's `recommendations` list (skipping results without one) in
dimension-traversal order, then sort by `priorityRank`.  JavaScript's
`Array.prototype.sort` is stable, modelled by the stable `insertionSort`. -/
def compileRecommendations (resultLists : List (Option (List Recommendation))) :
    List Recommendation :=
  let recs := (resultLists.filterMap id).flatten
  recs.insertionSort (fun a b => priorityRank a.priority ≤ priorityRank b.priority)

/-! ## `SSLAnalyzer.calculateSslScore` (mock-data variant) -/

/-- A synthesized cipher entry. -/
structure Cipher where
  name : String
  bits : ℕ
  strength : String
deriving DecidableEq, Repr

/-- The synthesized certificate (fields read by the scoring code). -/
structure Certificate where
  issuer : String
  subject : String
  daysRemaining : ℤ
  expired : Bool
  signatureAlgorithm : String
  isSelfSigned : Bool
deriving DecidableEq, Repr

/-- A synthesized vulnerability entry. -/
structure Vulnerability where
  id : String
  severity : String
  description : String
deriving DecidableEq, Repr

/-- A `startsWith` test on character lists (structural, so proofs can evaluate it). -/
def listStartsWith : List Char → List Char → Bool
  | [], _ => true
  | _ :: _, [] => false
  | p :: ps, c :: cs => p = c && listStartsWith ps cs

/-- Occurrence of `pat` as a contiguous run of `l`. -/
def listHasSub (pat : List Char) : List Char → Bool
  | [] => listStartsWith pat []
  | c :: cs => listStartsWith pat (c :: cs) || listHasSub pat cs

/-- JavaScript `s.includes(pat)`: `pat` occurs as a substring of `s`. -/
def jsStringIncludes (s pat : String) : Bool := listHasSub pat.data s.data

/-- Embedding of `SSLAnalyzer.calculateSslScore(protocols, ciphers, certificate,
vulnerabilities)`: starts from a base score of 50, adds/subtracts protocol,
cipher, certificate and vulnerability terms, and clamps to `[0, 100]`
(the final `Math.round` is the identity on this integer value). -/
def calculateSslScore (protocols : List String) (ciphers : List Cipher)
    (certificate : Certificate) (vulnerabilities : List Vulnerability) : ℤ :=
  let score : ℤ := 50
  let score := score + (if "TLSv1.3" ∈ protocols then 20 else 0)
  let score := score + (if "TLSv1.2" ∈ protocols then 10 else 0)
  let score := score - (if "TLSv1.1" ∈ protocols then 5 else 0)
  let score := score - (if "TLSv1.0" ∈ protocols then 10 else 0)
  let score := score - (if "SSLv3" ∈ protocols then 25 else 0)
  let strong := (ciphers.filter (fun c => c.strength = "strong")).length
  let weak := (ciphers.filter (fun c => c.strength = "weak")).length
  let score := score + strong * 8
  let score := score - weak * 12
  let score := score - (if certificate.expired then 30 else 0)
  let score := score - (if certificate.isSelfSigned then 20 else 0)
  let score := score + (if certificate.daysRemaining > 180 then 10 else 0)
  let score := score +
    (if jsStringIncludes certificate.signatureAlgorithm "ecdsa" then 5 else 0)
  let score := vulnerabilities.foldl (fun sc v =>
    sc + (if v.severity = "critical" then -30 else 0)
       + (if v.severity = "high" then -15 else 0)
       + (if v.severity = "medium" then -7 else 0)
       + (if v.severity = "low" then -3 else 0)) score
  let score := if score > 100 then 100 else score
  let score := if score < 0 then 0 else score
  score

/-! ## Seeded synthesizer: MD5-based seed and `seededRandom`

`SSLAnalyzer.generateRealisticMockData` derives
`seed = parseInt(md5(domain.toLowerCase()).substring(0, 8), 16) || 1`;
`WhoisAnalyzer.generateRealisticMockData` derives the same value without the
`|| 1` fallback.  Domains are modelled as byte lists (ASCII); MD5 is embedded
in full so the derivation is executable. -/

/-- ASCII lower-casing of one byte (`String.prototype.toLowerCase` on the
ASCII range: bytes 65–90 map to 97–122). -/
def lowerByte (b : ℕ) : ℕ := if 65 ≤ b ∧ b ≤ 90 then b + 32 else b

/-- ASCII lower-casing of a byte list. -/
def asciiLower (bytes : List ℕ) : List ℕ := bytes.map lowerByte

/-- 32-bit truncation. -/
def w32 (n : ℕ) : ℕ := n % 4294967296

/-- 32-bit left rotation. -/
def rotl32 (x c : ℕ) : ℕ := w32 ((x <<< c) + (x >>> (32 - c)))

/-- 32-bit bitwise complement. -/
def not32 (x : ℕ) : ℕ := 4294967295 - (x % 4294967296)

/-- The 64 MD5 per-round shift amounts. -/
def md5s : List ℕ :=
  [7, 12, 17, 22, 7, 12, 17, 22, 7, 12, 17, 22, 7, 12, 17, 22,
   5, 9, 14, 20, 5, 9, 14, 20, 5, 9, 14, 20, 5, 9, 14, 20,
   4, 11, 16, 23, 4, 11, 16, 23, 4, 11, 16, 23, 4, 11, 16, 23,
   6, 10, 15, 21, 6, 10, 15, 21, 6, 10, 15, 21, 6, 10, 15, 21]

/-- The 64 MD5 sine-derived constants `K[i] = floor(abs(sin(i+1)) * 2^32)`. -/
def md5K : List ℕ :=
  [0xd76aa478, 0xe8c7b756, 0x242070db, 0xc1bdceee,
   0xf57c0faf, 0x4787c62a, 0xa8304613, 0xfd469501,
   0x698098d8, 0x8b44f7af, 0xffff5bb1, 0x895cd7be,
   0x6b901122, 0xfd987193, 0xa679438e, 0x49b40821,
   0xf61e2562, 0xc040b340, 0x265e5a51, 0xe9b6c7aa,
   0xd62f105d, 0x02441453, 0xd8a1e681, 0xe7d3fbc8,
   0x21e1cde6, 0xc33707d6, 0xf4d50d87, 0x455a14ed,
   0xa9e3e905, 0xfcefa3f8, 0x676f02d9, 0x8d2a4c8a,
   0xfffa3942, 0x8771f681, 0x6d9d6122, 0xfde5380c,
   0xa4beea44, 0x4bdecfa9, 0xf6bb4b60, 0xbebfbc70,
   0x289b7ec6, 0xeaa127fa, 0xd4ef3085, 0x04881d05,
   0xd9d4d039, 0xe6db99e5, 0x1fa27cf8, 0xc4ac5665,
   0xf4292244, 0x432aff97, 0xab9423a7, 0xfc93a039,
   0x655b59c3, 0x8f0ccc92, 0xffeff47d, 0x85845dd1,
   0x6fa87e4f, 0xfe2ce6e0, 0xa3014314, 0x4e0811a1,
   0xf7537e82, 0xbd3af235, 0x2ad7d2bb, 0xeb86d391]

/-- MD5 working state. -/
structure MD5State where
  a : ℕ
  b : ℕ
  c : ℕ
  d : ℕ
deriving DecidableEq, Repr

/-- MD5 initial state. -/
def md5Init : MD5State := ⟨0x67452301, 0xefcdab89, 0x98badcfe, 0x10325476⟩

/-- Read the `j`-th little-endian 32-bit word of a 64-byte chunk. -/
def md5Word (chunk : List ℕ) (j : ℕ) : ℕ :=
  chunk.getD (4 * j) 0 + 256 * chunk.getD (4 * j + 1) 0 +
    65536 * chunk.getD (4 * j + 2) 0 + 16777216 * chunk.getD (4 * j + 3) 0

/-- One of the 64 MD5 rounds. -/
def md5Round (chunk : List ℕ) (st : MD5State) (i : ℕ) : MD5State :=
  let (f, g) :=
    if i < 16 then ((st.b &&& st.c) ||| (not32 st.b &&& st.d), i)
    else if i < 32 then ((st.d &&& st.b) ||| (not32 st.d &&& st.c), (5 * i + 1) % 16)
    else if i < 48 then (st.b ^^^ st.c ^^^ st.d, (3 * i + 5) % 16)
    else (st.c ^^^ (st.b ||| not32 st.d), (7 * i) % 16)
  let f := w32 (f + st.a + md5K.getD i 0 + md5Word chunk g)
  { a := st.d, b := w32 (st.b + rotl32 f (md5s.getD i 0)), c := st.b, d := st.c }

/-- Process one 64-byte chunk: 64 rounds, then add into the running state. -/
def md5Chunk (st : MD5State) (chunk : List ℕ) : MD5State :=
  let r := (List.range 64).foldl (md5Round chunk) st
  ⟨w32 (st.a + r.a), w32 (st.b + r.b), w32 (st.c + r.c), w32 (st.d + r.d)⟩

/-- Process a padded message 64 bytes at a time; the first argument is the
number of 64-byte chunks left (structural recursion so the kernel can
evaluate the hash). -/
def md5Chunks : ℕ → MD5State → List ℕ → MD5State
  | 0, st, _ => st
  | chunks + 1, st, msg => md5Chunks chunks (md5Chunk st (msg.take 64)) (msg.drop 64)

/-- The number `n` as `k` little-endian bytes. -/
def leBytes (k n : ℕ) : List ℕ :=
  match k with
  | 0 => []
  | k + 1 => n % 256 :: leBytes k (n / 256)

/-- MD5 padding: `0x80`, zeros to 56 mod 64, then the 64-bit little-endian
bit length. -/
def md5Pad (msg : List ℕ) : List ℕ :=
  let zeros := (120 - (msg.length + 1) % 64) % 64
  msg ++ [128] ++ List.replicate zeros 0 ++ leBytes 8 (8 * msg.length)

/-- The 16-byte MD5 digest of a byte message. -/
def md5 (msg : List ℕ) : List ℕ :=
  let padded := md5Pad msg
  let st := md5Chunks (padded.length / 64) md5Init padded
  leBytes 4 st.a ++ leBytes 4 st.b ++ leBytes 4 st.c ++ leBytes 4 st.d

/-- Lowercase hex character of a nibble. -/
def hexChar (n : ℕ) : Char :=
  if n < 10 then Char.ofNat (48 + n) else Char.ofNat (87 + n)

/-- JavaScript `digest('hex')`: lowercase hex string of a byte list. -/
def bytesToHex (bytes : List ℕ) : String :=
  String.mk (bytes.flatMap (fun b => [hexChar (b / 16), hexChar (b % 16)]))

/-- Value of one hex character (as produced by `hexChar`). -/
def hexVal (c : Char) : ℕ :=
  if c.toNat ≤ 57 then c.toNat - 48 else c.toNat - 87

/-- Embedding of `parseInt(s.substring(0, 8), 16)` on a hex string. -/
def parseHex8 (s : String) : ℕ :=
  (s.data.take 8).foldl (fun acc c => 16 * acc + hexVal c) 0

/-- Seed derivation shared by `SSLAnalyzer.generateRealisticMockData` and
`WhoisAnalyzer.generateRealisticMockData`:
`parseInt(md5(domain.toLowerCase()).digest('hex').substring(0, 8), 16)`. -/
def domainSeed (domain : List ℕ) : ℕ :=
  parseHex8 (bytesToHex (md5 (asciiLower domain)))

/-- The SSL analyzer's seed: `domainSeed` with the `|| 1` fallback applied
(`parseInt(..., 16) || 1`). -/
def sslSeed (domain : List ℕ) : ℕ :=
  if domainSeed domain = 0 then 1 else domainSeed domain

/-- Embedding of `seededRandom(n)`: `const x = Math.sin(n) * 10000; return x - Math.floor(x)`.

`Math.sin(n)` is a fixed, deterministic double for each `n`; the double it
returns is a rational value, taken here as the input `sinN`, so that the
transform applied to it is embedded exactly. -/
def seededRandom (sinN : ℚ) : ℚ :=
  let x := sinN * 10000
  x - ⌊x⌋

/-! ## Definitions following the spec's words (for comparison with the code) -/

/-- Follows the spec's words for the Risk Aggregator: the weight-normalized
mean of the `score` fields of the dimensions present in the record, with the
spec's weight table (ssl 20, headers 20, tech 15, malware 20, ports 15,
whois 10); dimensions with no result are excluded from both numerator and
denominator, and the value is `0` when no dimension is present. -/
def riskScoreSpecWeighted (results : ResultsMap) : ℚ :=
  let entries : List (ℚ × ℚ) :=
    (match results.ssl with | some s => [((20 : ℚ), s.score)] | none => []) ++
    (match results.headers with | some h => [((20 : ℚ), h.score)] | none => []) ++
    (match results.tech with | some t => [((15 : ℚ), t.score)] | none => []) ++
    (match results.malware with | some m => [((20 : ℚ), m.score)] | none => []) ++
    (match results.ports with | some p => [((15 : ℚ), p.score)] | none => []) ++
    (match results.whois with | some w => [((10 : ℚ), w.score)] | none => [])
  let weightSum := (entries.map (fun e => e.1)).sum
  if weightSum = 0 then 0 else (entries.map (fun e => e.1 * e.2)).sum / weightSum

/-- What `calculateRiskScore` actually computes, stated as a mean: the
rounded equal-weight mean of the per-dimension block points over the
dimensions present among ssl, headers, malware, ports, tech (whois never
contributes), `0` when none is present. -/
def riskScoreMean (results : ResultsMap) : ℤ :=
  let points : List ℚ :=
    [results.ssl.map (fun s => sslGradePoints s.grade),
     results.headers.map headersPoints,
     results.malware.map malwarePoints,
     results.ports.map portsPoints,
     results.tech.map techPoints].filterMap id
  if points.length = 0 then 0 else jsRound (points.sum / points.length)

/-- Follows the claim's words for the SSL dimension score: the weighted sum
of protocol, cipher, certificate and vulnerability terms — with no base
score and no signature-algorithm term — clamped to `[0, 100]`. -/
def sslScoreSpecSum (protocols : List String) (ciphers : List Cipher)
    (certificate : Certificate) (vulnerabilities : List Vulnerability) : ℤ :=
  let strong := (ciphers.filter (fun c => c.strength = "strong")).length
  let weak := (ciphers.filter (fun c => c.strength = "weak")).length
  let raw : ℤ :=
    (if "TLSv1.3" ∈ protocols then 20 else 0)
    + (if "TLSv1.2" ∈ protocols then 10 else 0)
    - (if "TLSv1.1" ∈ protocols then 5 else 0)
    - (if "TLSv1.0" ∈ protocols then 10 else 0)
    - (if "SSLv3" ∈ protocols then 25 else 0)
    + strong * 8 - weak * 12
    - (if certificate.expired then 30 else 0)
    - (if certificate.isSelfSigned then 20 else 0)
    + (if certificate.daysRemaining > 180 then 10 else 0)
    - (vulnerabilities.map (fun v =>
        (if v.severity = "critical" then (30 : ℤ) else 0)
        + (if v.severity = "high" then 15 else 0)
        + (if v.severity = "medium" then 7 else 0)
        + (if v.severity = "low" then 3 else 0))).sum
  if raw > 100 then 100 else if raw < 0 then 0 else raw

/-- What `calculateSslScore` actually computes, stated as one sum: the same
weighted sum as `sslScoreSpecSum` plus a base score of 50 and `+5` when the
certificate's signature algorithm mentions "ecdsa", clamped to `[0, 100]`. -/
def sslScoreAmendedSum (protocols : List String) (ciphers : List Cipher)
    (certificate : Certificate) (vulnerabilities : List Vulnerability) : ℤ :=
  let strong := (ciphers.filter (fun c => c.strength = "strong")).length
  let weak := (ciphers.filter (fun c => c.strength = "weak")).length
  let raw : ℤ :=
    50
    + (if "TLSv1.3" ∈ protocols then 20 else 0)
    + (if "TLSv1.2" ∈ protocols then 10 else 0)
    - (if "TLSv1.1" ∈ protocols then 5 else 0)
    - (if "TLSv1.0" ∈ protocols then 10 else 0)
    - (if "SSLv3" ∈ protocols then 25 else 0)
    + strong * 8 - weak * 12
    - (if certificate.expired then 30 else 0)
    - (if certificate.isSelfSigned then 20 else 0)
    + (if certificate.daysRemaining > 180 then 10 else 0)
    + (if jsStringIncludes certificate.signatureAlgorithm "ecdsa" then 5 else 0)
    - (vulnerabilities.map (fun v =>
        (if v.severity = "critical" then (30 : ℤ) else 0)
        + (if v.severity = "high" then 15 else 0)
        + (if v.severity = "medium" then 7 else 0)
        + (if v.severity = "low" then 3 else 0))).sum
  if raw > 100 then 100 else if raw < 0 then 0 else raw

/-! ## Shared helper lemmas and concrete fixtures -/

/-- The trace component of a step iteration. -/
theorem runStep_trace {α : Type} (name : String) (weight : ℤ) (o : Except String α)
    (storeResult : α → ResultsMap → ResultsMap) (st : LoopState) :
    (runStep name weight o storeResult st).trace =
      st.trace ++ [stepProgress (st.completedWeight + weight)] := by
  cases o <;> rfl

/-- The cumulative-weight component of a step iteration. -/
theorem runStep_completedWeight {α : Type} (name : String) (weight : ℤ)
    (o : Except String α) (storeResult : α → ResultsMap → ResultsMap) (st : LoopState) :
    (runStep name weight o storeResult st).completedWeight =
      st.completedWeight + weight := by
  cases o <;> rfl

/-- Whatever each analyzer does, the step loop writes the progress sequence
20, 40, 60, 75, 90, 100. -/
theorem startScan_trace (r0 : ScanRecord) (outs : StepOutcomes) :
    (startScan (.ok ()) (some r0) outs).2 = [20, 40, 60, 75, 90, 100] := by
  simp only [startScan, runStep_trace, runStep_completedWeight]
  norm_num [stepProgress, totalWeight, scanStepWeights, jsRound]

/-- Concrete analyzer results, matching the spec's end-to-end scenario
dimension scores. -/
def scenarioMalware : MalwareResult := { malicious := 0, total := 70, score := 100 }

def scenarioSsl : SslResult := { grade := "A+", score := 90 }

def scenarioHeaders : HeadersResult := { score := 80, missingHeaders := ["X-Frame-Options"] }

def scenarioTech : TechResult :=
  { technologies := [{ name := "Nginx", outdated := false }], score := 70 }

def scenarioPorts : PortsResult := { openPorts := [443], score := 85 }

def scenarioWhois : WhoisResult := { score := 75 }

/-- A run in which all six analyzers succeed. -/
def allOkOuts : StepOutcomes :=
  ⟨.ok scenarioMalware, .ok scenarioSsl, .ok scenarioHeaders,
   .ok scenarioTech, .ok scenarioPorts, .ok scenarioWhois⟩

/-! ## C1 — riskScore aggregation -/

/-- A results map with only an SSL result, grade "B", score field 90. -/
def cexResultsC1 : ResultsMap := { ssl := some { grade := "B", score := 90 } }

/-- C1 counterexample: `calculateRiskScore` is not the weight-normalized mean
of the per-dimension `score` fields.  With only an SSL result of grade "B"
and score 90 present, the claimed weighted mean is 90, but the code returns
75 (it scores the SSL dimension from its letter grade, not its score). -/
theorem riskScore_weighted_mean_cex :
    calculateRiskScore cexResultsC1 = 75 ∧
    riskScoreSpecWeighted cexResultsC1 = 90 ∧
    ((calculateRiskScore cexResultsC1 : ℚ) ≠ riskScoreSpecWeighted cexResultsC1) := by
  refine ⟨?_, ?_, ?_⟩ <;>
    simp [calculateRiskScore, riskScoreSpecWeighted, cexResultsC1, sslGradePoints] <;>
    norm_num [jsRound]

/-- C1 (amended): `riskScore` is the rounded equal-weight mean of the
dimension-specific block points of the dimensions present among ssl, headers,
malware, ports, tech — dimensions with no result are excluded from both
numerator and denominator, and the whois result never contributes. -/
theorem riskScore_blockwise_mean :
    (∀ results : ResultsMap, calculateRiskScore results = riskScoreMean results) ∧
    (∀ (results : ResultsMap) (w : Option WhoisResult),
      calculateRiskScore { results with whois := w } = calculateRiskScore results) := by
  constructor
  · intro results
    rcases results with ⟨m, s, h, t, p, w, rs, recs⟩
    rcases m with _ | m <;> rcases s with _ | s <;> rcases h with _ | h <;>
      rcases t with _ | t <;> rcases p with _ | p <;>
      simp only [calculateRiskScore, riskScoreMean, Option.map_some, Option.map_none,
        List.filterMap, List.length, List.sum_cons, List.sum_nil] <;>
      norm_num <;> (congr 1; ring)
  · intro results w
    rfl

/-! ## C3 — progress sequence -/

/-- C3 counterexample: in an all-success run the observed progress sequence
is 20, 40, 60, 75, 90, 100 — not the claimed 20, 40, 55, 75, 90, 100 (the
third step, headers, weighs 20, not 15). -/
theorem progress_sequence_cex :
    (startScan (.ok ()) (some initialScanRecord) allOkOuts).2 = [20, 40, 60, 75, 90, 100] ∧
    (startScan (.ok ()) (some initialScanRecord) allOkOuts).2 ≠ [20, 40, 55, 75, 90, 100] := by
  have h := startScan_trace initialScanRecord allOkOuts
  exact ⟨h, by rw [h]; decide⟩

/-- C3 (amended): for a scan in which all six analyzer steps succeed, the
progress observed after each of the six steps, in pipeline order (malware,
ssl, headers, tech, ports, whois with weights 20, 20, 20, 15, 15, 10), is
exactly 20, 40, 60, 75, 90, 100. -/
theorem progress_sequence_eq (r0 : ScanRecord) (mR : MalwareResult) (sR : SslResult)
    (hR : HeadersResult) (tR : TechResult) (pR : PortsResult) (wR : WhoisResult) :
    (startScan (.ok ()) (some r0)
      ⟨.ok mR, .ok sR, .ok hR, .ok tR, .ok pR, .ok wR⟩).2 =
      [20, 40, 60, 75, 90, 100] :=
  startScan_trace r0 _

/-! ## C2 — partial failure -/

/-- A run in which only the malware analyzer throws. -/
def cexOutsC2 : StepOutcomes :=
  ⟨.error "network timeout", .ok scenarioSsl, .ok scenarioHeaders,
   .ok scenarioTech, .ok scenarioPorts, .ok scenarioWhois⟩

/-- C2 counterexample: when exactly one analyzer (malware) throws, the scan
completes and the `StepError` is appended, but no degraded score-0 result is
stored for the failed dimension — its results slot remains `null`. -/
theorem one_step_failure_no_degraded_result_cex :
    ((startScan (.ok ()) (some initialScanRecord) cexOutsC2).1.map
      (fun r => r.status)) = some .completed ∧
    ((startScan (.ok ()) (some initialScanRecord) cexOutsC2).1.map
      (fun r => r.results.malware)) = some none ∧
    ((startScan (.ok ()) (some initialScanRecord) cexOutsC2).1.map
      (fun r => r.errors)) = some [{ step := "malware", error := "network timeout" }] :=
  ⟨rfl, rfl, rfl⟩

/-- C2 (amended): if the analyzer of exactly one dimension throws and the
other five succeed, the scan still ends with `status = completed` and a
`StepError` for that step, the five successful results are stored, and the
failed dimension's results slot remains `null` (no degraded score-0 result
is stored); the pipeline continues through all remaining steps.  One
conjunct per failing dimension. -/
theorem one_step_failure_completes_with_null_slot :
    (∀ (msg : String) (sR : SslResult) (hR : HeadersResult) (tR : TechResult)
        (pR : PortsResult) (wR : WhoisResult),
      let res := startScan (.ok ()) (some initialScanRecord)
        ⟨.error msg, .ok sR, .ok hR, .ok tR, .ok pR, .ok wR⟩
      (res.1.map fun r => r.status) = some .completed ∧
      (res.1.map fun r => r.results.malware) = some none ∧
      (res.1.map fun r => r.results.ssl) = some (some sR) ∧
      (res.1.map fun r => r.results.headers) = some (some hR) ∧
      (res.1.map fun r => r.results.tech) = some (some tR) ∧
      (res.1.map fun r => r.results.ports) = some (some pR) ∧
      (res.1.map fun r => r.results.whois) = some (some wR) ∧
      (res.1.map fun r => r.errors) = some [⟨"malware", msg⟩] ∧
      res.2.length = 6) ∧
    (∀ (msg : String) (mR : MalwareResult) (hR : HeadersResult) (tR : TechResult)
        (pR : PortsResult) (wR : WhoisResult),
      let res := startScan (.ok ()) (some initialScanRecord)
        ⟨.ok mR, .error msg, .ok hR, .ok tR, .ok pR, .ok wR⟩
      (res.1.map fun r => r.status) = some .completed ∧
      (res.1.map fun r => r.results.ssl) = some none ∧
      (res.1.map fun r => r.results.malware) = some (some mR) ∧
      (res.1.map fun r => r.results.headers) = some (some hR) ∧
      (res.1.map fun r => r.results.tech) = some (some tR) ∧
      (res.1.map fun r => r.results.ports) = some (some pR) ∧
      (res.1.map fun r => r.results.whois) = some (some wR) ∧
      (res.1.map fun r => r.errors) = some [⟨"ssl", msg⟩] ∧
      res.2.length = 6) ∧
    (∀ (msg : String) (mR : MalwareResult) (sR : SslResult) (tR : TechResult)
        (pR : PortsResult) (wR : WhoisResult),
      let res := startScan (.ok ()) (some initialScanRecord)
        ⟨.ok mR, .ok sR, .error msg, .ok tR, .ok pR, .ok wR⟩
      (res.1.map fun r => r.status) = some .completed ∧
      (res.1.map fun r => r.results.headers) = some none ∧
      (res.1.map fun r => r.results.malware) = some (some mR) ∧
      (res.1.map fun r => r.results.ssl) = some (some sR) ∧
      (res.1.map fun r => r.results.tech) = some (some tR) ∧
      (res.1.map fun r => r.results.ports) = some (some pR) ∧
      (res.1.map fun r => r.results.whois) = some (some wR) ∧
      (res.1.map fun r => r.errors) = some [⟨"headers", msg⟩] ∧
      res.2.length = 6) ∧
    (∀ (msg : String) (mR : MalwareResult) (sR : SslResult) (hR : HeadersResult)
        (pR : PortsResult) (wR : WhoisResult),
      let res := startScan (.ok ()) (some initialScanRecord)
        ⟨.ok mR, .ok sR, .ok hR, .error msg, .ok pR, .ok wR⟩
      (res.1.map fun r => r.status) = some .completed ∧
      (res.1.map fun r => r.results.tech) = some none ∧
      (res.1.map fun r => r.results.malware) = some (some mR) ∧
      (res.1.map fun r => r.results.ssl) = some (some sR) ∧
      (res.1.map fun r => r.results.headers) = some (some hR) ∧
      (res.1.map fun r => r.results.ports) = some (some pR) ∧
      (res.1.map fun r => r.results.whois) = some (some wR) ∧
      (res.1.map fun r => r.errors) = some [⟨"tech", msg⟩] ∧
      res.2.length = 6) ∧
    (∀ (msg : String) (mR : MalwareResult) (sR : SslResult) (hR : HeadersResult)
        (tR : TechResult) (wR : WhoisResult),
      let res := startScan (.ok ()) (some initialScanRecord)
        ⟨.ok mR, .ok sR, .ok hR, .ok tR, .error msg, .ok wR⟩
      (res.1.map fun r => r.status) = some .completed ∧
      (res.1.map fun r => r.results.ports) = some none ∧
      (res.1.map fun r => r.results.malware) = some (some mR) ∧
      (res.1.map fun r => r.results.ssl) = some (some sR) ∧
      (res.1.map fun r => r.results.headers) = some (some hR) ∧
      (res.1.map fun r => r.results.tech) = some (some tR) ∧
      (res.1.map fun r => r.results.whois) = some (some wR) ∧
      (res.1.map fun r => r.errors) = some [⟨"ports", msg⟩] ∧
      res.2.length = 6) ∧
    (∀ (msg : String) (mR : MalwareResult) (sR : SslResult) (hR : HeadersResult)
        (tR : TechResult) (pR : PortsResult),
      let res := startScan (.ok ()) (some initialScanRecord)
        ⟨.ok mR, .ok sR, .ok hR, .ok tR, .ok pR, .error msg⟩
      (res.1.map fun r => r.status) = some .completed ∧
      (res.1.map fun r => r.results.whois) = some none ∧
      (res.1.map fun r => r.results.malware) = some (some mR) ∧
      (res.1.map fun r => r.results.ssl) = some (some sR) ∧
      (res.1.map fun r => r.results.headers) = some (some hR) ∧
      (res.1.map fun r => r.results.tech) = some (some tR) ∧
      (res.1.map fun r => r.results.ports) = some (some pR) ∧
      (res.1.map fun r => r.errors) = some [⟨"whois", msg⟩] ∧
      res.2.length = 6) := by
  refine ⟨?_, ?_, ?_, ?_, ?_, ?_⟩ <;>
    (intros; exact ⟨rfl, rfl, rfl, rfl, rfl, rfl, rfl, rfl, rfl⟩)

/-! ## C9 — orchestration-level errors -/

/-- C9 counterexample: when the scan record cannot be located, the catch
handler finds no record either, so nothing is marked `failed` and no
`StepError` is appended anywhere — the store entry stays absent. -/
theorem lost_record_no_failed_mark_cex :
    startScan (.ok ()) none allOkOuts = (none, []) := rfl

/-- C9 (amended): on an orchestration-level error no analyzer step runs (the
progress trace is empty and no results are stored); when the record is still
present in the store it is marked `failed` with a general `StepError`
appended, but in the lost-record case — the case the claim singles out —
there is no record to mark, and the store entry is left unchanged. -/
theorem orchestration_error_behavior :
    (∀ (msg : String) (r0 : ScanRecord) (outs : StepOutcomes),
      startScan (.error msg) (some r0) outs =
        (some { r0 with status := .failed,
                        errors := r0.errors ++ [⟨"general", msg⟩] }, [])) ∧
    (∀ (msg : String) (outs : StepOutcomes),
      startScan (.error msg) none outs = (none, [])) ∧
    (∀ outs : StepOutcomes, startScan (.ok ()) none outs = (none, [])) :=
  ⟨fun _ _ _ => rfl, fun _ _ => rfl, fun _ => rfl⟩

/-! ## C4 — progress monotonicity and completion invariant -/

/-- C4: for every execution of the orchestrator, the written progress values
are non-decreasing, and any stored record whose status is `completed` has
`progress = 100` and its `endTime` set. -/
theorem progress_monotone_completed_full (ed : Except String Unit)
    (stored : Option ScanRecord) (outs : StepOutcomes) :
    List.Chain' (· ≤ ·) (startScan ed stored outs).2 ∧
    (∀ r : ScanRecord, (startScan ed stored outs).1 = some r →
      r.status = .completed → r.progress = 100 ∧ r.endTime = true) := by
  constructor
  · cases ed with
    | error msg => cases stored <;> simp [startScan]
    | ok u =>
      cases stored with
      | none => simp [startScan]
      | some r0 =>
        rw [startScan_trace]
        refine List.chain'_cons.mpr ⟨by norm_num, ?_⟩
        refine List.chain'_cons.mpr ⟨by norm_num, ?_⟩
        refine List.chain'_cons.mpr ⟨by norm_num, ?_⟩
        refine List.chain'_cons.mpr ⟨by norm_num, ?_⟩
        refine List.chain'_cons.mpr ⟨by norm_num, ?_⟩
        exact List.chain'_singleton _
  · intro r hr hstatus
    cases ed with
    | error msg =>
      cases stored with
      | none => simp [startScan] at hr
      | some r0 =>
        simp only [startScan, Option.some.injEq] at hr
        rw [← hr] at hstatus
        simp at hstatus
    | ok u =>
      cases stored with
      | none => simp [startScan] at hr
      | some r0 =>
        simp only [startScan, Option.some.injEq] at hr
        rw [← hr]
        exact ⟨rfl, rfl⟩

/-- The record stored after a lost-free all-success run (used to witness the
completion invariant at a concrete input). -/
def finalRecordC4 : ScanRecord :=
  ((startScan (.ok ()) (some initialScanRecord) allOkOuts).1).getD initialScanRecord

/-- Witness for C4 at a concrete input: the all-success run on the freshly
created record yields a non-decreasing progress trace and a completed record
with `progress = 100` and `endTime` set. -/
theorem progress_monotone_completed_full_witness :
    List.Chain' (· ≤ ·) (startScan (.ok ()) (some initialScanRecord) allOkOuts).2 ∧
    finalRecordC4.progress = 100 ∧ finalRecordC4.endTime = true :=
  ⟨(progress_monotone_completed_full (.ok ()) (some initialScanRecord) allOkOuts).1,
   (progress_monotone_completed_full (.ok ()) (some initialScanRecord) allOkOuts).2
     finalRecordC4 rfl rfl⟩

/-! ## C5 — read-time risk level -/

/-- A results map whose aggregate riskScore is far below 40 (SSL grade "F",
malware 20 of 70 vendors flagging). -/
def cexResultsC5 : ResultsMap :=
  { ssl := some { grade := "F", score := 0 },
    malware := some { malicious := 20, total := 70, score := 0 } }

/-- C5 counterexample: the read-time `calculateRiskLevel` does not map the
aggregate score through the 80/60/40 thresholds.  On this record the
aggregate `riskScore` is 36, whose threshold level is "critical", but the
read-time function returns "high" (it averages 0–10 sub-scores with
thresholds 8 and 5 and can never return "critical"). -/
theorem read_risk_level_thresholds_cex :
    calculateRiskScore cexResultsC5 = 36 ∧
    getRiskLevel 36 = "critical" ∧
    calculateRiskLevel cexResultsC5 = "high" ∧
    calculateRiskLevel cexResultsC5 ≠ getRiskLevel (calculateRiskScore cexResultsC5) := by
  have h1 : calculateRiskScore cexResultsC5 = 36 := by
    simp [calculateRiskScore, cexResultsC5, sslGradePoints, malwarePoints]
    norm_num [jsRound]
  have h2 : calculateRiskLevel cexResultsC5 = "high" := by
    simp [calculateRiskLevel, cexResultsC5]
  refine ⟨h1, by norm_num [getRiskLevel], h2, ?_⟩
  rw [h1, h2]
  decide

/-- C5 (amended): the read-time risk-level computation is a pure function of
the results map (reading twice yields the same level), but it does not use
the 80/60/40/critical thresholds: it averages per-dimension sub-scores on a
0–10 scale over the present ssl/headers/malware/ports dimensions with
thresholds 8 (low) and 5 (medium) and can never return "critical"; the
80/60/40 threshold mapping (85 → low, 65 → medium, 45 → high,
20 → critical) belongs to the separate score-based `getRiskLevel` helper. -/
theorem read_risk_level_pure_and_thresholds :
    (∀ results : ResultsMap, calculateRiskLevel results = calculateRiskLevel results) ∧
    (∀ results : ResultsMap, calculateRiskLevel results ≠ "critical") ∧
    getRiskLevel 85 = "low" ∧ getRiskLevel 65 = "medium" ∧
    getRiskLevel 45 = "high" ∧ getRiskLevel 20 = "critical" := by
  refine ⟨fun _ => rfl, ?_, by norm_num [getRiskLevel], by norm_num [getRiskLevel],
    by norm_num [getRiskLevel], by norm_num [getRiskLevel]⟩
  intro results
  simp only [calculateRiskLevel]
  repeat' split
  all_goals decide

/-! ## C10 — read-time summary -/

/-- C10: the read-time summary counts each present dimension among ssl,
headers, malware, ports exactly once into exactly one of the passed, failed
or warning buckets, so `totalChecks = passedChecks + failedChecks + warnings`
and `totalChecks ≤ 4`; the tech and whois results never change any summary
field. -/
theorem summary_partition_and_bound (results : ResultsMap) :
    (generateSummary results).totalChecks =
      (generateSummary results).passedChecks +
        (generateSummary results).failedChecks + (generateSummary results).warnings ∧
    (generateSummary results).totalChecks ≤ 4 ∧
    (∀ (t : Option TechResult) (w : Option WhoisResult),
      generateSummary { results with tech := t, whois := w } =
        generateSummary results) := by
  refine ⟨?_, ?_, fun _ _ => rfl⟩ <;>
    (simp only [generateSummary]
     repeat' split
     all_goals decide)

/-! ## C7 — SSL dimension score -/

/-- Folding the per-vulnerability penalty terms subtracts the summed positive
penalties. -/
theorem vuln_foldl_eq_sub (l : List Vulnerability) (init : ℤ) :
    l.foldl (fun sc v =>
      sc + (if v.severity = "critical" then -30 else 0)
         + (if v.severity = "high" then -15 else 0)
         + (if v.severity = "medium" then -7 else 0)
         + (if v.severity = "low" then -3 else 0)) init =
    init - (l.map (fun v =>
      (if v.severity = "critical" then (30 : ℤ) else 0)
      + (if v.severity = "high" then 15 else 0)
      + (if v.severity = "medium" then 7 else 0)
      + (if v.severity = "low" then 3 else 0))).sum := by
  induction l generalizing init with
  | nil => simp
  | cons v t ih => simp only [List.foldl_cons, List.map_cons, List.sum_cons, ih]; split_ifs <;> ring

/-- Clamping by two sequential ifs equals the nested-if clamp. -/
theorem clamp_seq_eq (x : ℤ) :
    (if (if x > 100 then 100 else x) < 0 then 0 else if x > 100 then 100 else x) =
      (if x > 100 then (100 : ℤ) else if x < 0 then 0 else x) := by
  split_ifs <;> omega

/-- A certificate with no score-affecting features (not expired, not
self-signed, 100 days remaining, RSA signature). -/
def cexCertificateC7 : Certificate :=
  { issuer := "DigiCert", subject := "CN=example.com", daysRemaining := 100,
    expired := false, signatureAlgorithm := "rsa-sha256", isSelfSigned := false }

/-- C7 counterexample: the SSL score is not the claimed weighted sum.  With
no protocols, no ciphers, no vulnerabilities and a featureless certificate,
every term of the claimed sum is 0, yet the code returns 50 (its base
score, which the claim omits). -/
theorem ssl_score_weighted_sum_cex :
    calculateSslScore [] [] cexCertificateC7 [] = 50 ∧
    sslScoreSpecSum [] [] cexCertificateC7 [] = 0 ∧
    calculateSslScore [] [] cexCertificateC7 [] ≠ sslScoreSpecSum [] [] cexCertificateC7 [] := by
  refine ⟨?_, ?_, ?_⟩ <;> decide

/-- C7 (amended): the SSL dimension score equals the claimed weighted sum of
protocol, cipher, certificate and vulnerability terms plus a base score of
50 and `+5` when the certificate's signature algorithm mentions "ecdsa",
clamped to `[0, 100]`. -/
theorem ssl_score_base50_sum (protocols : List String) (ciphers : List Cipher)
    (certificate : Certificate) (vulnerabilities : List Vulnerability) :
    calculateSslScore protocols ciphers certificate vulnerabilities =
      sslScoreAmendedSum protocols ciphers certificate vulnerabilities := by
  simp only [calculateSslScore, sslScoreAmendedSum, vuln_foldl_eq_sub]
  exact clamp_seq_eq _

/-! ## C8 — recommendation compilation -/

def recLowC8 : Recommendation :=
  { message := "Keep Nginx updated to the latest stable release", priority := some "low" }

def recCriticalC8 : Recommendation :=
  { message := "Investigate and clean the website immediately", priority := some "critical" }

def recMediumC8 : Recommendation :=
  { message := "Enable WHOIS privacy to protect owner info", priority := some "medium" }

def recHighC8 : Recommendation :=
  { message := "Close unused ports to reduce attack surface", priority := some "high" }

def recUnrankedC8 : Recommendation :=
  { message := "Review configuration", priority := none }

/-- C8: the recommendation compiler concatenates the per-dimension lists and
sorts them by the fixed priority order critical < high < medium < low with
unranked priorities last, stably: the output is sorted by rank, it is a
permutation of the concatenation, equal-rank pairs keep their original
relative order, and the claim's concrete scenario
[low, critical, medium, high] comes out [critical, high, medium, low]. -/
theorem compile_recommendations_sorted_stable :
    compileRecommendations
        [some [recLowC8], some [recCriticalC8], none, some [recMediumC8], some [recHighC8]] =
      [recCriticalC8, recHighC8, recMediumC8, recLowC8] ∧
    compileRecommendations [some [recUnrankedC8, recLowC8]] = [recLowC8, recUnrankedC8] ∧
    (∀ resultLists : List (Option (List Recommendation)),
      List.Sorted (fun a b => priorityRank a.priority ≤ priorityRank b.priority)
        (compileRecommendations resultLists)) ∧
    (∀ resultLists : List (Option (List Recommendation)),
      (compileRecommendations resultLists).Perm ((resultLists.filterMap id).flatten)) ∧
    (∀ (resultLists : List (Option (List Recommendation))) (a b : Recommendation),
      priorityRank a.priority = priorityRank b.priority →
      List.Sublist [a, b] ((resultLists.filterMap id).flatten) →
      List.Sublist [a, b] (compileRecommendations resultLists)) := by
  haveI ht : IsTotal Recommendation
      (fun a b => priorityRank a.priority ≤ priorityRank b.priority) :=
    ⟨fun a b => Nat.le_total _ _⟩
  haveI htr : IsTrans Recommendation
      (fun a b => priorityRank a.priority ≤ priorityRank b.priority) :=
    ⟨fun _ _ _ hab hbc => le_trans hab hbc⟩
  refine ⟨by decide, by decide, ?_, ?_, ?_⟩
  · intro resultLists
    exact List.sorted_insertionSort _ _
  · intro resultLists
    exact List.perm_insertionSort _ _
  · intro resultLists a b hrank hsub
    exact List.pair_sublist_insertionSort (le_of_eq hrank) hsub

/-- Witness for C8's stability hypotheses at a concrete input: two equal-rank
(medium) recommendations from different dimensions keep their original
relative order in the compiled output. -/
theorem compile_recommendations_sorted_stable_witness :
    List.Sublist
      [recMediumC8, { message := "Add X-Frame-Options header", priority := some "medium" }]
      (compileRecommendations
        [some [recMediumC8],
         some [{ message := "Add X-Frame-Options header", priority := some "medium" }]]) :=
  compile_recommendations_sorted_stable.2.2.2.2
    [some [recMediumC8],
     some [{ message := "Add X-Frame-Options header", priority := some "medium" }]]
    recMediumC8 { message := "Add X-Frame-Options header", priority := some "medium" }
    rfl (List.Sublist.refl _)

/-! ## C6 — seeded synthesizer determinism -/

/-- ASCII lower-casing is idempotent on bytes. -/
theorem lowerByte_idem (b : ℕ) : lowerByte (lowerByte b) = lowerByte b := by
  simp only [lowerByte]
  split_ifs <;> omega

/-- ASCII lower-casing is idempotent on byte lists. -/
theorem asciiLower_idem (d : List ℕ) : asciiLower (asciiLower d) = asciiLower d := by
  simp only [asciiLower, List.map_map]
  exact List.map_congr_left fun b _ => lowerByte_idem b

set_option maxRecDepth 100000 in
/-- C6: the seed derivation is deterministic and case-insensitive (it
lower-cases the domain before hashing, so a pre-lower-cased domain derives
the same seed), the empty domain derives the stable seed 3558706393 (both
with the SSL analyzer's `|| 1` fallback and without it, as in the Whois
analyzer) rather than failing, and `seededRandom` is a pure function of its
input whose value always lies in `[0, 1)`. -/
theorem seed_determinism_and_fract_range :
    (∀ domain : List ℕ, sslSeed domain = sslSeed domain) ∧
    (∀ domain : List ℕ, sslSeed (asciiLower domain) = sslSeed domain) ∧
    (∀ domain : List ℕ, domainSeed (asciiLower domain) = domainSeed domain) ∧
    sslSeed [] = 3558706393 ∧
    domainSeed [] = 3558706393 ∧
    (∀ sinN : ℚ, seededRandom sinN = seededRandom sinN ∧
      0 ≤ seededRandom sinN ∧ seededRandom sinN < 1) := by
  have hlower : ∀ domain : List ℕ, domainSeed (asciiLower domain) = domainSeed domain := by
    intro domain
    simp only [domainSeed, asciiLower_idem]
  refine ⟨fun _ => rfl, ?_, hlower, ?_, ?_, ?_⟩
  · intro domain
    simp only [sslSeed, hlower]
  · decide
  · decide
  · intro sinN
    have hfr : seededRandom sinN = Int.fract (sinN * 10000) := rfl
    exact ⟨rfl, by rw [hfr]; exact Int.fract_nonneg _, by rw [hfr]; exact Int.fract_lt_one _⟩
